import Mathlib

set_option linter.unusedVariables false

/-!
Verification development for the deployment health-check scripts
(`sample-yaml-reading.py`, `health.py`, `new.py`).

The scripts read a deployment descriptor (YAML), iterate declared
components, dispatch on the component's `type` string to a per-kind
check function, and print one status line per component.  This file
shallowly embeds those scripts:

* Python exceptions are modelled by the `Except` monad: `ClientError`
  is the typed provider-side failure raised by API calls, `PyErr` is
  the class of all exceptions a strategy invocation can surface.
* A provider API call (`boto3` client method) either returns a
  well-formed response value or raises a `ClientError`; the bundle of
  all API calls a run can make is the `Cloud` oracle.  Responses are
  assumed well-formed (the record fields the code reads are present),
  so the only provider-side failure mode is `ClientError`, matching
  the documented behaviour of the AWS SDK calls used here.
* A check strategy ("health check function") is a function from the
  declared name, the declared properties and the `Cloud` oracle to an
  `Except PyErr String`: `.ok s` models the Python function returning
  the status string `s`, `.error e` models an exception escaping it.
* Python's `str in str` containment test, `dict.get`, `x or y` and
  truthiness are embedded by `pyIn`, lookup helpers, `pyOrStr` and
  explicit emptiness tests.
-/

/-- A `botocore.exceptions.ClientError`: the provider-side error code
(`e.response['Error']['Code']`) and message
(`e.response['Error']['Message']`). -/
structure ClientError where
  code : String
  message : String
deriving DecidableEq

/-- A Python exception as observable at a strategy boundary: either a
provider `ClientError` or any other exception (carried as its rendered
text). -/
inductive PyErr where
  | clientError (e : ClientError)
  | other (msg : String)
deriving DecidableEq

/-- Rendering `str(e)` of an exception, as interpolated into the
"unexpected error" line of the run loop. -/
def pyErrStr : PyErr → String
  | .clientError e => e.message
  | .other msg => msg

/-- Computation that may raise a Python exception. -/
abbrev M (α : Type) : Type := Except PyErr α

/-- Result of one provider API call: a response or a `ClientError`. -/
abbrev P (α : Type) : Type := Except ClientError α

/-- Performing a provider call inside a strategy body: a `ClientError`
raised by the call propagates as a Python exception. -/
def liftP {α : Type} : P α → M α
  | .ok a => .ok a
  | .error e => .error (.clientError e)

/-- Embedding of `try: body except ClientError as e: return handler(e)`:
every handler in the scripts immediately returns a string. -/
def pyTry (body : M String) (handler : ClientError → String) : M String :=
  match body with
  | .ok s => .ok s
  | .error (.clientError e) => .ok (handler e)
  | .error (.other msg) => .error (.other msg)

/-- Whether the character list `n` occurs at the front of `h`. -/
def startsWithList : List Char → List Char → Bool
  | [], _ => true
  | _ :: _, [] => false
  | a :: as, b :: bs => a == b && startsWithList as bs

/-- Whether the character list `n` occurs contiguously anywhere in `h`. -/
def hasSubList (n : List Char) : List Char → Bool
  | [] => n.isEmpty
  | c :: t => startsWithList n (c :: t) || hasSubList n t

/-- Python's substring test `needle in haystack` on strings. -/
def pyIn (needle haystack : String) : Bool :=
  hasSubList needle.data haystack.data

/-- Declared component properties: the `properties` mapping of a
component record (string keys to string values). -/
abbrev Props : Type := List (String × String)

/-- Python `properties.get(key)`: the value at `key`, or `None`. -/
def pyGetProp (props : Props) (key : String) : Option String :=
  (props.find? (fun kv => kv.1 == key)).map (fun kv => kv.2)

/-- Python `a or b` on optional strings (`None` and `""` are falsy). -/
def pyOrStr (a b : Option String) : Option String :=
  match a with
  | some s => if s = "" then b else some s
  | none => b

/-! ## Provider response records

One structure per response shape the scripts read, holding exactly the
fields the code accesses. -/

/-- An entry of `describe_db_clusters()['DBClusters']`. -/
structure DBCluster where
  dbClusterIdentifier : String
  status : String
deriving DecidableEq

/-- An EC2 instance as read from a reservation. -/
structure Ec2Instance where
  instanceId : String
  state : String
deriving DecidableEq

/-- An entry of `describe_instances(...)['Reservations']`. -/
structure Reservation where
  instances : List Ec2Instance
deriving DecidableEq

/-- An entry of `describe_instance_status(...)['InstanceStatuses']`. -/
structure InstanceStatusRec where
  instanceStatus : String
  systemStatus : String
deriving DecidableEq

/-- An entry of `describe_load_balancers()['LoadBalancers']`. -/
structure LoadBalancer where
  loadBalancerName : String
  stateCode : String
deriving DecidableEq

/-- An entry of `list_roles()['Roles']`. -/
structure IamRole where
  roleName : String
deriving DecidableEq

/-- An entry of an ECS `describe_clusters` response's `failures`. -/
structure EcsFailure where
  reason : String
deriving DecidableEq

/-- An entry of an ECS `describe_clusters` response's `clusters`. -/
structure EcsCluster where
  clusterName : String
  status : String
  activeServicesCount : Nat
deriving DecidableEq

/-- An ECS `describe_clusters` response (`failures` and `clusters`
both default to empty via `.get`). -/
structure EcsResponse where
  failures : List EcsFailure
  clusters : List EcsCluster
deriving DecidableEq

/-- The `KeyMetadata` of a KMS `describe_key` response. -/
structure KeyMetadata where
  keyId : String
  keyState : String
deriving DecidableEq

/-- An entry of `list_functions()['Functions']`; `State` may be absent
(`func.get('State', 'N/A')`). -/
structure LambdaFunction where
  functionName : String
  runtime : String
  state : Option String
deriving DecidableEq

/-- The provider oracle: one field per API call the strategies make.
Parameterised calls take the argument the code passes (the ECS lookup
key, the KMS `KeyId` string, the EC2 tag filter pattern, the instance
id).  `list_queues` may omit `QueueUrls` (the code reads it with
`response.get('QueueUrls', [])`). -/
structure Cloud where
  describe_db_clusters : P (List DBCluster)
  describe_instances : String → P (List Reservation)
  describe_instance_status : String → P (List InstanceStatusRec)
  describe_load_balancers : P (List LoadBalancer)
  list_roles : P (List IamRole)
  describe_clusters : String → P EcsResponse
  describe_key : String → P KeyMetadata
  list_queues : P (Option (List String))
  list_functions : P (List LambdaFunction)

/-! ## Status message builders

The exact f-strings the check functions return. -/

/-- `f"AWS API Error: {e.response['Error']['Message']}"`. -/
def api_error_msg (e : ClientError) : String :=
  "AWS API Error: " ++ e.message

/-- RDS found message. -/
def rds_found_msg (c : DBCluster) : String :=
  "Found Cluster: " ++ c.dbClusterIdentifier ++ ", Status: " ++ c.status

/-- RDS not-found message. -/
def rds_not_found_msg (name : String) : String :=
  "Cluster containing name '" ++ name ++ "' not found."

/-- ManagementHost not-found message. -/
def mh_not_found_msg (name : String) : String :=
  "Instance with name tag like '*" ++ name ++ "*' not found."

/-- ManagementHost found message when status checks are available. -/
def mh_found_status_msg (inst : Ec2Instance) (st : InstanceStatusRec) : String :=
  "Found Instance: " ++ inst.instanceId ++ ", State: " ++ inst.state ++
    ", InstanceStatus: " ++ st.instanceStatus ++ ", SystemStatus: " ++ st.systemStatus

/-- ManagementHost found message when no status checks are returned. -/
def mh_found_nostatus_msg (inst : Ec2Instance) : String :=
  "Found Instance: " ++ inst.instanceId ++ ", State: " ++ inst.state ++
    ". Status checks not available (may be stopped)."

/-- Load balancer found message. -/
def lb_found_msg (lb : LoadBalancer) : String :=
  "Found LB: " ++ lb.loadBalancerName ++ ", State: " ++ lb.stateCode

/-- Load balancer not-found message. -/
def lb_not_found_msg (name : String) : String :=
  "Load Balancer containing name '" ++ name ++ "' not found."

/-- IAM role found message. -/
def iam_found_msg (r : IamRole) : String :=
  "Found Role containing name: " ++ r.roleName

/-- IAM role not-found message. -/
def iam_not_found_msg (name : String) : String :=
  "Role containing name '" ++ name ++ "' not found."

/-- ECS failure-entry message. -/
def ecs_failure_msg (name reason : String) : String :=
  "ECS Cluster '" ++ name ++ "' not found or error: " ++ reason

/-- ECS found message. -/
def ecs_found_msg (c : EcsCluster) : String :=
  "Found Cluster: " ++ c.clusterName ++ ", Status: " ++ c.status ++
    ", ActiveServices: " ++ toString c.activeServicesCount

/-- ECS not-found message. -/
def ecs_not_found_msg (name : String) : String :=
  "ECS Cluster '" ++ name ++ "' not found."

/-- KMS skipped message (no `key_alias` property). -/
def kms_skipped_msg : String :=
  "Skipped: 'key_alias' not defined in properties."

/-- KMS found message. -/
def kms_found_msg (m : KeyMetadata) (alias_name : String) : String :=
  "Found Key: " ++ m.keyId ++ " via alias '" ++ alias_name ++ "', State: " ++ m.keyState

/-- KMS not-found message. -/
def kms_not_found_msg (alias_name : String) : String :=
  "KMS Key with alias '" ++ alias_name ++ "' not found."

/-- SQS found message (the queue URL, as the code prints it). -/
def sqs_found_msg (url : String) : String :=
  "Found SQS Queue: " ++ url

/-- SQS not-found message. -/
def sqs_not_found_msg (name : String) : String :=
  "SQS Queue containing name '" ++ name ++ "' not found."

/-- Lambda found message. -/
def lambda_found_msg (f : LambdaFunction) : String :=
  "Found Lambda: " ++ f.functionName ++ ", Runtime: " ++ f.runtime ++
    ", State: " ++ f.state.getD "N/A"

/-- Lambda not-found message. -/
def lambda_not_found_msg (name : String) : String :=
  "Lambda function containing name '" ++ name ++ "' not found."

/-- The fixed Route53 status string. -/
def route53_skipped_msg : String :=
  "Skipped: Route53 check is complex and not fully implemented. It requires Hosted Zone ID and record details."

/-- The run loop's line for a type with no registry entry. -/
def unsupported_type_msg (comp_type : String) : String :=
  "Health check not implemented for type '" ++ comp_type ++ "'."

/-! ## Check strategies

One Lean function per `_check_*` function.  `health.py` and
`sample-yaml-reading.py` contain byte-identical bodies for every
check function they share, so each is embedded once. -/

/-- `_check_rds_aurora`: list DB clusters, accept the first whose
identifier contains `name`. -/
def check_rds_aurora (name : String) (properties : Props) (cloud : Cloud) : M String :=
  pyTry (do
    let clusters ← liftP cloud.describe_db_clusters
    match clusters.find? (fun c => pyIn name c.dbClusterIdentifier) with
    | some cluster => pure (rds_found_msg cluster)
    | none => pure (rds_not_found_msg name))
    (fun e => api_error_msg e)

/-- `_check_management_host`: describe instances filtered by a
`tag:Name` pattern `*name*`; inspect only `reservations[0]['Instances'][0]`,
then look up its status checks. -/
def check_management_host (name : String) (properties : Props) (cloud : Cloud) : M String :=
  pyTry (do
    let reservations ← liftP (cloud.describe_instances ("*" ++ name ++ "*"))
    match reservations with
    | [] => pure (mh_not_found_msg name)
    | r :: _ =>
      match r.instances with
      | [] => pure (mh_not_found_msg name)
      | inst :: _ => do
        let status_res ← liftP (cloud.describe_instance_status inst.instanceId)
        match status_res with
        | st :: _ => pure (mh_found_status_msg inst st)
        | [] => pure (mh_found_nostatus_msg inst))
    (fun e => api_error_msg e)

/-- `_check_load_balancer`: list load balancers, accept the first
whose name contains `name`. -/
def check_load_balancer (name : String) (properties : Props) (cloud : Cloud) : M String :=
  pyTry (do
    let lbs ← liftP cloud.describe_load_balancers
    match lbs.find? (fun l => pyIn name l.loadBalancerName) with
    | some lb => pure (lb_found_msg lb)
    | none => pure (lb_not_found_msg name))
    (fun e => api_error_msg e)

/-- `_check_iam_role`: list roles, accept the first whose name
contains `name`. -/
def check_iam_role (name : String) (properties : Props) (cloud : Cloud) : M String :=
  pyTry (do
    let roles ← liftP cloud.list_roles
    match roles.find? (fun r => pyIn name r.roleName) with
    | some role => pure (iam_found_msg role)
    | none => pure (iam_not_found_msg name))
    (fun e => api_error_msg e)

/-- `_check_ecs_cluster`: `describe_clusters(clusters=[name])` — the
lookup key is the declared `name`; `properties` is never consulted. -/
def check_ecs_cluster (name : String) (properties : Props) (cloud : Cloud) : M String :=
  pyTry (do
    let response ← liftP (cloud.describe_clusters name)
    match response.failures with
    | failure :: _ => pure (ecs_failure_msg name failure.reason)
    | [] =>
      match response.clusters with
      | cluster :: _ => pure (ecs_found_msg cluster)
      | [] => pure (ecs_not_found_msg name))
    (fun e => api_error_msg e)

/-- `_check_kms_key`: requires `properties['key_alias']` (skipping
when absent or empty, Python truthiness); looks up
`KeyId=f'alias/{alias_name}'`.  The declared `name` is never used. -/
def check_kms_key (name : String) (properties : Props) (cloud : Cloud) : M String :=
  match pyGetProp properties "key_alias" with
  | none => pure kms_skipped_msg
  | some alias_name =>
    if alias_name = "" then pure kms_skipped_msg
    else
      pyTry (do
        let response ← liftP (cloud.describe_key ("alias/" ++ alias_name))
        pure (kms_found_msg response alias_name))
        (fun e =>
          if e.code = "NotFoundException" then kms_not_found_msg alias_name
          else api_error_msg e)

/-- `_check_sqs_queue`: list queue URLs, accept the first URL that
contains `name` (the match is on the full URL, not the queue name). -/
def check_sqs_queue (name : String) (properties : Props) (cloud : Cloud) : M String :=
  pyTry (do
    let response ← liftP cloud.list_queues
    let queue_urls := response.getD []
    match queue_urls.find? (fun url => pyIn name url) with
    | some queue_url => pure (sqs_found_msg queue_url)
    | none => pure (sqs_not_found_msg name))
    (fun e => api_error_msg e)

/-- `_check_lambda_function`: list functions, accept the first whose
name contains `name`. -/
def check_lambda_function (name : String) (properties : Props) (cloud : Cloud) : M String :=
  pyTry (do
    let functions ← liftP cloud.list_functions
    match functions.find? (fun f => pyIn name f.functionName) with
    | some func => pure (lambda_found_msg func)
    | none => pure (lambda_not_found_msg name))
    (fun e => api_error_msg e)

/-- `_check_route53_record`: a fixed string; no provider call. -/
def check_route53_record (name : String) (properties : Props) (cloud : Cloud) : M String :=
  pure route53_skipped_msg

/-- The type of a check strategy. -/
abbrev Strategy : Type := String → Props → Cloud → M String

/-- `HEALTH_CHECK_REGISTRY` of `sample-yaml-reading.py`, embedded as
its lookup function `HEALTH_CHECK_REGISTRY.get(comp_type)` (keys in
source order; all keys are distinct, so the dict is its if-chain). -/
def HEALTH_CHECK_REGISTRY : String → Option Strategy := fun comp_type =>
  if comp_type = "RDSAuroraPostgres" then some check_rds_aurora
  else if comp_type = "ManagementHost" then some check_management_host
  else if comp_type = "SQS" then some check_sqs_queue
  else if comp_type = "Lambda" then some check_lambda_function
  else if comp_type = "Route53Record" then some check_route53_record
  else if comp_type = "ApplicationLoadBalancer" then some check_load_balancer
  else if comp_type = "NetworkLoadBalancer" then some check_load_balancer
  else if comp_type = "Roles" then some check_iam_role
  else if comp_type = "GlobalRoles" then some check_iam_role
  else if comp_type = "ECSCluster" then some check_ecs_cluster
  else if comp_type = "KMS" then some check_kms_key
  else none

/-- `HEALTH_CHECK_REGISTRY` of `health.py` (no SQS, Lambda or
Route53Record entries there). -/
def HEALTH_CHECK_REGISTRY_health : String → Option Strategy := fun comp_type =>
  if comp_type = "RDSAuroraPostgres" then some check_rds_aurora
  else if comp_type = "ManagementHost" then some check_management_host
  else if comp_type = "ApplicationLoadBalancer" then some check_load_balancer
  else if comp_type = "NetworkLoadBalancer" then some check_load_balancer
  else if comp_type = "Roles" then some check_iam_role
  else if comp_type = "GlobalRoles" then some check_iam_role
  else if comp_type = "ECSCluster" then some check_ecs_cluster
  else if comp_type = "KMS" then some check_kms_key
  else none

/-! ## The verification run loop

Both `health.py`'s `__main__` and `sample-yaml-reading.py`'s
`run_health_checks` contain the same per-component loop, differing
only in which registry the file defines; the loop is embedded once,
parameterised by the registry lookup function. -/

/-- A parsed component record: `comp.get('type')`, `comp.get('name')`
(`None` when absent) and `comp.get('properties', {})`. -/
structure Component where
  type : Option String
  name : Option String
  properties : Props
deriving DecidableEq

/-- The "Skipping component" line. -/
def skipping_line : String :=
  "Skipping component with missing type or name."

/-- The normal status line printed for a component. -/
def status_line (status : String) : String :=
  "  -> Status: " ++ status

/-- The line printed when a check function raises (`except Exception`). -/
def unexpected_error_line (e : PyErr) : String :=
  "  -> An unexpected error occurred during check: " ++ pyErrStr e

/-- One iteration of the run loop: skip when `type` or `name` is
missing or empty (`if not (comp_type and comp_name)`), otherwise
dispatch via the registry; a registry miss prints the
not-implemented line; a registered check runs under
`try/except Exception`, so an exception becomes the
"unexpected error" line instead of propagating. -/
def processComponent (registry : String → Option Strategy) (cloud : Cloud)
    (comp : Component) : M String :=
  match comp.type, comp.name with
  | some comp_type, some comp_name =>
    if comp_type = "" ∨ comp_name = "" then pure skipping_line
    else
      match registry comp_type with
      | some check_function =>
        match check_function comp_name comp.properties cloud with
        | .ok status => pure (status_line status)
        | .error e => pure (unexpected_error_line e)
      | none => pure (status_line (unsupported_type_msg comp_type))
  | _, _ => pure skipping_line

/-- The `for comp in components_to_check` loop, collecting the status
line of each component in order; an exception escaping an iteration
would abort the remaining iterations (Python's `for` propagates). -/
def run_health_checks_loop (registry : String → Option Strategy) (cloud : Cloud) :
    List Component → M (List String)
  | [] => pure []
  | comp :: rest => do
    let line ← processComponent registry cloud comp
    let lines ← run_health_checks_loop registry cloud rest
    pure (line :: lines)

/-! ## ClientManager

Identical in `health.py` and `sample-yaml-reading.py`. -/

/-- A `boto3.client(service_name, region_name=...)` object, identified
by its construction arguments. -/
structure Client where
  service_name : String
  region_name : Option String
deriving DecidableEq

/-- The client cache: `self._clients` (a dict in insertion order) and
`self.region`. -/
structure ClientManager where
  clients : List (String × Client)
  region : Option String
deriving DecidableEq

/-- `ClientManager.get`: create the client on first request for a
service (`boto3.client(service_name, region_name=region_override or
self.region)`), store it, and return the stored client thereafter. -/
def ClientManager.get (cm : ClientManager) (service_name : String)
    (region_override : Option String) : Client × ClientManager :=
  match cm.clients.find? (fun kv => kv.1 == service_name) with
  | some kv => (kv.2, cm)
  | none =>
    let client : Client := ⟨service_name, pyOrStr region_override cm.region⟩
    (client, ⟨cm.clients ++ [(service_name, client)], cm.region⟩)

/-! ## The YAML layer

A small model of the parsed YAML documents the scripts consume:
strings, sequences, mappings and `None` (ints and other scalars do
not occur in the shapes the claims exercise). -/

/-- A parsed YAML value. -/
inductive Yaml where
  | null
  | str (s : String)
  | list (items : List Yaml)
  | dict (fields : List (String × Yaml))

/-- Python truthiness of a parsed YAML value. -/
def Yaml.truthy : Yaml → Bool
  | .null => false
  | .str s => !(s == "")
  | .list items => !items.isEmpty
  | .dict fields => !fields.isEmpty

/-- Truthiness of an optional YAML value (`None` is falsy). -/
def yamlOptTruthy : Option Yaml → Bool
  | none => false
  | some v => v.truthy

/-- Python `value.get(key)`: a lookup on a dict, an `AttributeError`
on anything else. -/
def pyGetM (value : Yaml) (key : String) : M (Option Yaml) :=
  match value with
  | .dict fields => .ok (((fields.find? (fun kv => kv.1 == key))).map (fun kv => kv.2))
  | _ => .error (.other "AttributeError")

/-- Python `value.get(key, default)`. -/
def pyGetDefM (value : Yaml) (key : String) (default : Yaml) : M Yaml :=
  (pyGetM value key).map (fun r => r.getD default)

/-- Python `value[0]`: head of a sequence; `IndexError` on an empty
sequence, `TypeError` on a non-sequence. -/
def pyIndexZero : Yaml → M Yaml
  | .list (x :: _) => .ok x
  | .list [] => .error (.other "IndexError")
  | _ => .error (.other "TypeError")

/-- Iterating a YAML value with `for`: the items of a sequence; any
other truthy value either fails to iterate or yields non-mapping
items, so the loop raises (model restriction: rendered as a single
`TypeError`). -/
def yamlItemsM : Yaml → M (List Yaml)
  | .list items => pure items
  | _ => .error (.other "TypeError")

/-- Reading one loop component out of its YAML mapping:
`comp.get('type')`, `comp.get('name')`, `comp.get('properties', {})`.
Model restriction: a present `type`/`name` that is not a string, or a
`properties` value that is not a mapping of strings, is rendered as a
raised error (the claims only exercise string-typed records). -/
def componentOfYamlM (compY : Yaml) : M Component := do
  let t ← pyGetM compY "type"
  let n ← pyGetM compY "name"
  let propsY ← pyGetDefM compY "properties" (.dict [])
  let tS ← match t with
    | none => pure (none : Option String)
    | some (.str s) => pure (some s)
    | some _ => .error (.other "non-string type field (model restriction)")
  let nS ← match n with
    | none => pure (none : Option String)
    | some (.str s) => pure (some s)
    | some _ => .error (.other "non-string name field (model restriction)")
  let props ← match propsY with
    | .dict fields =>
      fields.foldrM (fun kv acc =>
        match kv.2 with
        | .str s => pure ((kv.1, s) :: acc)
        | _ => .error (.other "non-string property value (model restriction)")) []
    | _ => .error (.other "non-dict properties (model restriction)")
  pure ⟨tS, nS, props⟩

/-- The run loop driven directly by the YAML component list, as both
entry points execute it. -/
def yaml_loop (registry : String → Option Strategy) (cloud : Cloud) :
    List Yaml → M (List String)
  | [] => pure []
  | compY :: rest => do
    let comp ← componentOfYamlM compY
    let line ← processComponent registry cloud comp
    let lines ← yaml_loop registry cloud rest
    pure (line :: lines)

/-- `health.py` line 198: `components_to_check = config.get('components', [])`
— the components section is read only at the document root. -/
def health_components (config : Yaml) : M Yaml :=
  pyGetDefM config "components" (.list [])

/-- The `__main__` of `health.py`.  `loadResult` is the outcome of
`get_deployment_config` (`none` when the file is missing or the YAML
fails to parse).  The result is the process exit status paired with
the per-component status lines; a raised `PyErr` models an uncaught
exception (which also terminates the process with a non-zero status,
before producing a report). -/
def health_main (loadResult : Option Yaml) (cloud : Cloud) : M (Nat × List String) :=
  match loadResult with
  | none => pure (1, [])
  | some config =>
    if config.truthy = false then pure (1, [])
    else do
      let specV ← pyGetDefM config "spec" (.dict [])
      let modulepak ← pyGetDefM specV "modulepak" (.list [.dict []])
      let firstPak ← pyIndexZero modulepak
      let env ← pyGetDefM firstPak "environment" (.dict [])
      let _region ← pyGetM env "awsRegion"
      let compsY ← health_components config
      if compsY.truthy then do
        let items ← yamlItemsM compsY
        let lines ← yaml_loop HEALTH_CHECK_REGISTRY_health cloud items
        pure (0, lines)
      else pure (0, [])

/-- `run_health_checks` of `sample-yaml-reading.py`: file or parse
errors print a message and `return` (no exit call); a missing region
or an empty component list also just `return`. -/
def run_health_checks (loadResult : Option Yaml) (cloud : Cloud) : M (List String) :=
  match loadResult with
  | none => pure []
  | some config => do
    let specV ← pyGetDefM config "spec" (.dict [])
    let modulepak ← pyGetDefM specV "modulepak" (.list [.dict []])
    let firstPak ← pyIndexZero modulepak
    let env ← pyGetDefM firstPak "environment" (.dict [])
    let region ← pyGetM env "awsRegion"
    let compsY ← pyGetDefM config "components" (.list [])
    if yamlOptTruthy region = false then pure []
    else if compsY.truthy = false then pure []
    else do
      let items ← yamlItemsM compsY
      yaml_loop HEALTH_CHECK_REGISTRY cloud items

/-- The `__main__` of `sample-yaml-reading.py`: calls
`run_health_checks` and falls off the end, so every normal completion
exits with status `0`. -/
def sample_main (loadResult : Option Yaml) (cloud : Cloud) : M (Nat × List String) :=
  (run_health_checks loadResult cloud).map (fun lines => (0, lines))

/-! ## The component extractor of `new.py`

`extract_location_and_services_from_yaml` (`new.py`, components
portion):
`parsed.get('spec', {}).get('components') or parsed.get('components')
or []`, then keep mapping-shaped entries as
`{'type': c.get('type'), 'name': c.get('name'),
'properties': c.get('properties', {})}`; any exception in the block
yields `[]`. -/

/-- A component record as built by `new.py`'s extractor (raw YAML
values). -/
structure ExtractedComp where
  type : Option Yaml
  name : Option Yaml
  properties : Yaml

/-- The Python `a or b or []` chain over the two candidate component
sections. -/
def pyOrComps (a b : Option Yaml) : Yaml :=
  match a with
  | some v => if v.truthy then v else (match b with
    | some w => if w.truthy then w else .list []
    | none => .list [])
  | none => match b with
    | some w => if w.truthy then w else .list []
    | none => .list []

/-- One record per mapping-shaped entry (`isinstance(c, dict)`);
other entries are skipped with `continue`. -/
def extractedCompOfYaml : Yaml → Option ExtractedComp
  | .dict fields => some
      ⟨((fields.find? (fun kv => kv.1 == "type"))).map (fun kv => kv.2),
       ((fields.find? (fun kv => kv.1 == "name"))).map (fun kv => kv.2),
       (((fields.find? (fun kv => kv.1 == "properties"))).map (fun kv => kv.2)).getD (.dict [])⟩
  | _ => none

/-- The body of the extraction `try` block. -/
def extract_componentsM (parsed : Yaml) : M (List ExtractedComp) := do
  let specV ← pyGetDefM parsed "spec" (.dict [])
  let specComps ← pyGetM specV "components"
  let rootComps ← pyGetM parsed "components"
  let comps := pyOrComps specComps rootComps
  let items := match comps with
    | .list xs => xs
    | _ => []
  pure (items.filterMap extractedCompOfYaml)

/-- The components extracted by `new.py`'s
`extract_location_and_services_from_yaml`: the `try` block's result,
or `[]` when it raises (`except Exception: components = []`). -/
def extract_components (parsed : Yaml) : List ExtractedComp :=
  match extract_componentsM parsed with
  | .ok comps => comps
  | .error _ => []

/-! ## Helper lemmas -/

/-- Inversion for a successful `Except` bind. -/
theorem mbind_ok {α β : Type} {m : M α} {k : α → M β} {v : β}
    (h : m >>= k = Except.ok v) : ∃ a, m = Except.ok a ∧ k a = Except.ok v := by
  cases m with
  | ok a => exact ⟨a, rfl, h⟩
  | error e => simp [Bind.bind, Except.bind] at h

/-- `String.append` concatenates the underlying character lists. -/
theorem strData_append (a b : String) : (a ++ b).data = a.data ++ b.data := by
  cases a
  cases b
  rfl

/-- Appending on the right preserves the head character. -/
theorem strHead_append {a : String} (b : String) {c : Char}
    (h : a.data.head? = some c) : (a ++ b).data.head? = some c := by
  rw [strData_append]
  cases hd : a.data with
  | nil => rw [hd] at h; exact absurd h (by simp)
  | cons x xs => rw [hd] at h; simpa using h

/-- Strings with different head characters differ. -/
theorem strNe_of_head {a b : String} {c d : Char}
    (ha : a.data.head? = some c) (hb : b.data.head? = some d) (hcd : c ≠ d) :
    a ≠ b := by
  intro hab
  rw [hab, hb] at ha
  exact hcd (Option.some.inj ha).symm

/-- `find?` returns the first element satisfying the predicate, in
list order: everything before it fails the predicate. -/
theorem find?_first {α : Type} (p : α → Bool) (pre : List α) (a : α) (post : List α)
    (hpre : ∀ x ∈ pre, p x = false) (ha : p a = true) :
    (pre ++ a :: post).find? p = some a := by
  induction pre with
  | nil => simp [List.find?, ha]
  | cons y ys ih =>
    have hy : p y = false := hpre y (by simp)
    simp only [List.cons_append, List.find?, hy]
    exact ih (fun x hx => hpre x (by simp [hx]))

/-- `find?` misses when every element fails the predicate. -/
theorem find?_all_false {α : Type} (p : α → Bool) (l : List α)
    (h : ∀ x ∈ l, p x = false) : l.find? p = none := by
  induction l with
  | nil => rfl
  | cons y ys ih =>
    have hy : p y = false := h y (by simp)
    simp only [List.find?, hy]
    exact ih (fun x hx => h x (by simp [hx]))

/-- A failed `find?` skips over the prefix. -/
theorem find?_append_of_none {α : Type} (p : α → Bool) (l l' : List α)
    (h : l.find? p = none) : (l ++ l').find? p = l'.find? p := by
  induction l with
  | nil => rfl
  | cons y ys ih =>
    simp only [List.find?] at h
    cases hy : p y with
    | true => rw [hy] at h; exact absurd h (by simp)
    | false =>
      rw [hy] at h
      simp only [List.cons_append, List.find?, hy]
      exact ih h

/-! Totality of each registered check function: whatever the provider
returns (including `ClientError`s from every call), the function
returns a status string and raises nothing. -/

/-- RDS check never raises. -/
theorem check_rds_aurora_ok (name : String) (props : Props) (cloud : Cloud) :
    ∃ s, check_rds_aurora name props cloud = .ok s := by
  unfold check_rds_aurora
  cases h : cloud.describe_db_clusters with
  | ok clusters =>
    cases hf : clusters.find? (fun c => pyIn name c.dbClusterIdentifier) with
    | some c => exact ⟨rds_found_msg c, by simp [pyTry, liftP, h, hf, Bind.bind, Except.bind, pure, Except.pure]⟩
    | none => exact ⟨rds_not_found_msg name, by simp [pyTry, liftP, h, hf, Bind.bind, Except.bind, pure, Except.pure]⟩
  | error e => exact ⟨api_error_msg e, by simp [pyTry, liftP, h, Bind.bind, Except.bind]⟩

/-- ManagementHost check never raises. -/
theorem check_management_host_ok (name : String) (props : Props) (cloud : Cloud) :
    ∃ s, check_management_host name props cloud = .ok s := by
  unfold check_management_host
  cases h : cloud.describe_instances ("*" ++ name ++ "*") with
  | ok reservations =>
    match reservations with
    | [] => exact ⟨mh_not_found_msg name, by simp [pyTry, liftP, h, Bind.bind, Except.bind, pure, Except.pure]⟩
    | r :: rs =>
      match hi : r.instances with
      | [] => exact ⟨mh_not_found_msg name, by simp [pyTry, liftP, h, hi, Bind.bind, Except.bind, pure, Except.pure]⟩
      | inst :: insts =>
        cases hs : cloud.describe_instance_status inst.instanceId with
        | ok sts =>
          match sts with
          | [] => exact ⟨mh_found_nostatus_msg inst, by simp [pyTry, liftP, h, hi, hs, Bind.bind, Except.bind, pure, Except.pure]⟩
          | st :: _ => exact ⟨mh_found_status_msg inst st, by simp [pyTry, liftP, h, hi, hs, Bind.bind, Except.bind, pure, Except.pure]⟩
        | error e => exact ⟨api_error_msg e, by simp [pyTry, liftP, h, hi, hs, Bind.bind, Except.bind, pure, Except.pure]⟩
  | error e => exact ⟨api_error_msg e, by simp [pyTry, liftP, h, Bind.bind, Except.bind]⟩

/-- Load balancer check never raises. -/
theorem check_load_balancer_ok (name : String) (props : Props) (cloud : Cloud) :
    ∃ s, check_load_balancer name props cloud = .ok s := by
  unfold check_load_balancer
  cases h : cloud.describe_load_balancers with
  | ok lbs =>
    cases hf : lbs.find? (fun l => pyIn name l.loadBalancerName) with
    | some lb => exact ⟨lb_found_msg lb, by simp [pyTry, liftP, h, hf, Bind.bind, Except.bind, pure, Except.pure]⟩
    | none => exact ⟨lb_not_found_msg name, by simp [pyTry, liftP, h, hf, Bind.bind, Except.bind, pure, Except.pure]⟩
  | error e => exact ⟨api_error_msg e, by simp [pyTry, liftP, h, Bind.bind, Except.bind]⟩

/-- IAM role check never raises. -/
theorem check_iam_role_ok (name : String) (props : Props) (cloud : Cloud) :
    ∃ s, check_iam_role name props cloud = .ok s := by
  unfold check_iam_role
  cases h : cloud.list_roles with
  | ok roles =>
    cases hf : roles.find? (fun r => pyIn name r.roleName) with
    | some r => exact ⟨iam_found_msg r, by simp [pyTry, liftP, h, hf, Bind.bind, Except.bind, pure, Except.pure]⟩
    | none => exact ⟨iam_not_found_msg name, by simp [pyTry, liftP, h, hf, Bind.bind, Except.bind, pure, Except.pure]⟩
  | error e => exact ⟨api_error_msg e, by simp [pyTry, liftP, h, Bind.bind, Except.bind]⟩

/-- ECS check never raises. -/
theorem check_ecs_cluster_ok (name : String) (props : Props) (cloud : Cloud) :
    ∃ s, check_ecs_cluster name props cloud = .ok s := by
  unfold check_ecs_cluster
  cases h : cloud.describe_clusters name with
  | ok response =>
    match hfail : response.failures with
    | failure :: _ => exact ⟨ecs_failure_msg name failure.reason, by simp [pyTry, liftP, h, hfail, Bind.bind, Except.bind, pure, Except.pure]⟩
    | [] =>
      match hcl : response.clusters with
      | cluster :: _ => exact ⟨ecs_found_msg cluster, by simp [pyTry, liftP, h, hfail, hcl, Bind.bind, Except.bind, pure, Except.pure]⟩
      | [] => exact ⟨ecs_not_found_msg name, by simp [pyTry, liftP, h, hfail, hcl, Bind.bind, Except.bind, pure, Except.pure]⟩
  | error e => exact ⟨api_error_msg e, by simp [pyTry, liftP, h, Bind.bind, Except.bind]⟩

/-- KMS check never raises. -/
theorem check_kms_key_ok (name : String) (props : Props) (cloud : Cloud) :
    ∃ s, check_kms_key name props cloud = .ok s := by
  unfold check_kms_key
  cases hp : pyGetProp props "key_alias" with
  | none => exact ⟨kms_skipped_msg, rfl⟩
  | some alias_name =>
    by_cases he : alias_name = ""
    · exact ⟨kms_skipped_msg, by simp [he, pure, Except.pure]⟩
    · cases h : cloud.describe_key ("alias/" ++ alias_name) with
      | ok m => exact ⟨kms_found_msg m alias_name, by simp [he, pyTry, liftP, h, Bind.bind, Except.bind, pure, Except.pure]⟩
      | error e =>
        by_cases hc : e.code = "NotFoundException"
        · exact ⟨kms_not_found_msg alias_name, by simp [he, pyTry, liftP, h, hc, Bind.bind, Except.bind]⟩
        · exact ⟨api_error_msg e, by simp [he, pyTry, liftP, h, hc, Bind.bind, Except.bind]⟩

/-- SQS check never raises. -/
theorem check_sqs_queue_ok (name : String) (props : Props) (cloud : Cloud) :
    ∃ s, check_sqs_queue name props cloud = .ok s := by
  unfold check_sqs_queue
  cases h : cloud.list_queues with
  | ok response =>
    cases hf : (response.getD []).find? (fun url => pyIn name url) with
    | some url => exact ⟨sqs_found_msg url, by simp [pyTry, liftP, h, hf, Bind.bind, Except.bind, pure, Except.pure]⟩
    | none => exact ⟨sqs_not_found_msg name, by simp [pyTry, liftP, h, hf, Bind.bind, Except.bind, pure, Except.pure]⟩
  | error e => exact ⟨api_error_msg e, by simp [pyTry, liftP, h, Bind.bind, Except.bind]⟩

/-- Lambda check never raises. -/
theorem check_lambda_function_ok (name : String) (props : Props) (cloud : Cloud) :
    ∃ s, check_lambda_function name props cloud = .ok s := by
  unfold check_lambda_function
  cases h : cloud.list_functions with
  | ok functions =>
    cases hf : functions.find? (fun f => pyIn name f.functionName) with
    | some f => exact ⟨lambda_found_msg f, by simp [pyTry, liftP, h, hf, Bind.bind, Except.bind, pure, Except.pure]⟩
    | none => exact ⟨lambda_not_found_msg name, by simp [pyTry, liftP, h, hf, Bind.bind, Except.bind, pure, Except.pure]⟩
  | error e => exact ⟨api_error_msg e, by simp [pyTry, liftP, h, Bind.bind, Except.bind]⟩

/-- Route53 check never raises. -/
theorem check_route53_record_ok (name : String) (props : Props) (cloud : Cloud) :
    ∃ s, check_route53_record name props cloud = .ok s :=
  ⟨route53_skipped_msg, rfl⟩

/-! ## Concrete provider states used by witnesses and counterexamples -/

/-- A provider with no resources anywhere. -/
def cloud0 : Cloud where
  describe_db_clusters := .ok []
  describe_instances := fun _ => .ok []
  describe_instance_status := fun _ => .ok []
  describe_load_balancers := .ok []
  list_roles := .ok []
  describe_clusters := fun _ => .ok ⟨[], []⟩
  describe_key := fun _ => .error ⟨"NotFoundException", "Alias not found"⟩
  list_queues := .ok (some [])
  list_functions := .ok []

/-- A provider every call of which raises a throttling `ClientError`. -/
def errCloud : Cloud where
  describe_db_clusters := .error ⟨"Throttling", "Rate exceeded"⟩
  describe_instances := fun _ => .error ⟨"Throttling", "Rate exceeded"⟩
  describe_instance_status := fun _ => .error ⟨"Throttling", "Rate exceeded"⟩
  describe_load_balancers := .error ⟨"Throttling", "Rate exceeded"⟩
  list_roles := .error ⟨"Throttling", "Rate exceeded"⟩
  describe_clusters := fun _ => .error ⟨"Throttling", "Rate exceeded"⟩
  describe_key := fun _ => .error ⟨"Throttling", "Rate exceeded"⟩
  list_queues := .error ⟨"Throttling", "Rate exceeded"⟩
  list_functions := .error ⟨"Throttling", "Rate exceeded"⟩

/-! ## Claims -/

set_option maxHeartbeats 1600000 in
/-- C1: every descriptor type with a registered strategy, under every
provider behaviour (each API call may return data or raise a
`ClientError`), yields a returned verdict string — no exception
crosses the strategy boundary; and a failing provider call surfaces
inside the strategy as the error-kind `AWS API Error` verdict, shown
here for the two cited strategies (`_check_rds_aurora`,
`_check_lambda_function`). -/
theorem c1_registered_strategies_total :
    (∀ t f, HEALTH_CHECK_REGISTRY t = some f →
      ∀ name props cloud, ∃ s, f name props cloud = .ok s)
    ∧ (∀ name props (cloud : Cloud) e, cloud.describe_db_clusters = .error e →
        check_rds_aurora name props cloud = .ok (api_error_msg e))
    ∧ (∀ name props (cloud : Cloud) e, cloud.list_functions = .error e →
        check_lambda_function name props cloud = .ok (api_error_msg e)) := by
  refine ⟨?_, ?_, ?_⟩
  · intro t f hf name props cloud
    unfold HEALTH_CHECK_REGISTRY at hf
    split_ifs at hf
    · injection hf with hf; subst hf; exact check_rds_aurora_ok name props cloud
    · injection hf with hf; subst hf; exact check_management_host_ok name props cloud
    · injection hf with hf; subst hf; exact check_sqs_queue_ok name props cloud
    · injection hf with hf; subst hf; exact check_lambda_function_ok name props cloud
    · injection hf with hf; subst hf; exact check_route53_record_ok name props cloud
    · injection hf with hf; subst hf; exact check_load_balancer_ok name props cloud
    · injection hf with hf; subst hf; exact check_load_balancer_ok name props cloud
    · injection hf with hf; subst hf; exact check_iam_role_ok name props cloud
    · injection hf with hf; subst hf; exact check_iam_role_ok name props cloud
    · injection hf with hf; subst hf; exact check_ecs_cluster_ok name props cloud
    · injection hf with hf; subst hf; exact check_kms_key_ok name props cloud
  · intro name props cloud e h
    unfold check_rds_aurora
    simp [pyTry, liftP, h, Bind.bind, Except.bind]
  · intro name props cloud e h
    unfold check_lambda_function
    simp [pyTry, liftP, h, Bind.bind, Except.bind]

/-- Witness for C1: a registered strategy (`SQS`) on a concrete
provider returns a verdict, and both cited strategies convert a
concrete throttling failure into the error-kind verdict. -/
theorem c1_witness :
    (∃ s, check_sqs_queue "orders" [] cloud0 = .ok s)
    ∧ check_rds_aurora "db" [] errCloud = .ok (api_error_msg ⟨"Throttling", "Rate exceeded"⟩)
    ∧ check_lambda_function "fn" [] errCloud = .ok (api_error_msg ⟨"Throttling", "Rate exceeded"⟩) :=
  ⟨c1_registered_strategies_total.1 "SQS" check_sqs_queue rfl "orders" [] cloud0,
   c1_registered_strategies_total.2.1 "db" [] errCloud ⟨"Throttling", "Rate exceeded"⟩ rfl,
   c1_registered_strategies_total.2.2 "fn" [] errCloud ⟨"Throttling", "Rate exceeded"⟩ rfl⟩

/-- C6: the Route53Record strategy returns the fixed not-implemented
verdict for every name, every property set and every provider state
(so no provider call can influence it), it is the strategy registered
for the `Route53Record` tag, and its detail text states that the
check is not implemented. -/
theorem c6_route53_fixed_verdict :
    (∀ name props cloud, check_route53_record name props cloud = .ok route53_skipped_msg)
    ∧ HEALTH_CHECK_REGISTRY "Route53Record" = some check_route53_record
    ∧ pyIn "not fully implemented" route53_skipped_msg = true :=
  ⟨fun _ _ _ => rfl, rfl, by decide⟩

/-- C9: `ClientManager.get` caches: after any first `get` for a
service, a second `get` for the same service returns exactly the
client and state produced by the first call, whatever
`region_override` the second call passes; and on a fresh manager the
first call constructs the client from `region_override or
self.region` and stores it. -/
theorem c9_client_manager_caches :
    (∀ (cm : ClientManager) (svc : String) (ov ov' : Option String),
      ((cm.get svc ov).2).get svc ov' = ((cm.get svc ov).1, (cm.get svc ov).2))
    ∧ (∀ (r : Option String) (svc : String) (ov : Option String),
      (ClientManager.mk [] r).get svc ov =
        (⟨svc, pyOrStr ov r⟩, ⟨[(svc, ⟨svc, pyOrStr ov r⟩)], r⟩)) := by
  refine ⟨?_, fun _ _ _ => rfl⟩
  intro cm svc ov ov'
  unfold ClientManager.get
  cases h : cm.clients.find? (fun kv => kv.1 == svc) with
  | some kv => simp [h]
  | none =>
    simp only [h]
    rw [find?_append_of_none _ _ _ h]
    simp [List.find?]

/-- C10: `_check_management_host` inspects only the first reservation:
when the first returned reservation has no instances the verdict is
not-found, whatever the later reservations contain; and when it does
have instances, only its first instance is examined. -/
theorem c10_management_host_first_reservation :
    (∀ name props (cloud : Cloud) r rest,
      cloud.describe_instances ("*" ++ name ++ "*") = .ok (r :: rest) →
      r.instances = [] →
      check_management_host name props cloud = .ok (mh_not_found_msg name))
    ∧ (∀ name props (cloud : Cloud) inst insts rest,
      cloud.describe_instances ("*" ++ name ++ "*") = .ok (Reservation.mk (inst :: insts) :: rest) →
      cloud.describe_instance_status inst.instanceId = .ok [] →
      check_management_host name props cloud = .ok (mh_found_nostatus_msg inst)) := by
  constructor
  · intro name props cloud r rest h hi
    unfold check_management_host
    simp [pyTry, liftP, h, hi, Bind.bind, Except.bind, pure, Except.pure]
  · intro name props cloud inst insts rest h hs
    unfold check_management_host
    simp [pyTry, liftP, h, hs, Bind.bind, Except.bind, pure, Except.pure]

/-- A provider whose first reservation is empty while the second
holds a running instance whose tags match. -/
def cloud10 : Cloud where
  describe_db_clusters := .ok []
  describe_instances := fun _ => .ok [⟨[]⟩, ⟨[⟨"i-123", "running"⟩]⟩]
  describe_instance_status := fun _ => .ok []
  describe_load_balancers := .ok []
  list_roles := .ok []
  describe_clusters := fun _ => .ok ⟨[], []⟩
  describe_key := fun _ => .error ⟨"NotFoundException", "Alias not found"⟩
  list_queues := .ok (some [])
  list_functions := .ok []

/-- Witness for C10: with an empty first reservation and a matching
instance in the second, the verdict is still not-found. -/
theorem c10_witness :
    check_management_host "mgmt" [] cloud10 = .ok (mh_not_found_msg "mgmt") :=
  c10_management_host_first_reservation.1 "mgmt" [] cloud10
    ⟨[]⟩ [⟨[⟨"i-123", "running"⟩]⟩] rfl rfl

/-! Head characters of the status messages: the not-implemented line
starts with `H`, every not-found message with a different letter, so
the two outcome families can never collide. -/

/-- Unsupported-type message head. -/
theorem unsupported_type_msg_head (t : String) :
    (unsupported_type_msg t).data.head? = some 'H' :=
  strHead_append _ (strHead_append _ rfl)

/-- RDS not-found message head. -/
theorem rds_not_found_msg_head (n : String) :
    (rds_not_found_msg n).data.head? = some 'C' :=
  strHead_append _ (strHead_append _ rfl)

/-- ManagementHost not-found message head. -/
theorem mh_not_found_msg_head (n : String) :
    (mh_not_found_msg n).data.head? = some 'I' :=
  strHead_append _ (strHead_append _ rfl)

/-- Load balancer not-found message head. -/
theorem lb_not_found_msg_head (n : String) :
    (lb_not_found_msg n).data.head? = some 'L' :=
  strHead_append _ (strHead_append _ rfl)

/-- IAM not-found message head. -/
theorem iam_not_found_msg_head (n : String) :
    (iam_not_found_msg n).data.head? = some 'R' :=
  strHead_append _ (strHead_append _ rfl)

/-- ECS failure message head. -/
theorem ecs_failure_msg_head (n r : String) :
    (ecs_failure_msg n r).data.head? = some 'E' :=
  strHead_append _ (strHead_append _ (strHead_append _ rfl))

/-- ECS not-found message head. -/
theorem ecs_not_found_msg_head (n : String) :
    (ecs_not_found_msg n).data.head? = some 'E' :=
  strHead_append _ (strHead_append _ rfl)

/-- KMS not-found message head. -/
theorem kms_not_found_msg_head (a : String) :
    (kms_not_found_msg a).data.head? = some 'K' :=
  strHead_append _ (strHead_append _ rfl)

/-- SQS not-found message head. -/
theorem sqs_not_found_msg_head (n : String) :
    (sqs_not_found_msg n).data.head? = some 'S' :=
  strHead_append _ (strHead_append _ rfl)

/-- Lambda not-found message head. -/
theorem lambda_not_found_msg_head (n : String) :
    (lambda_not_found_msg n).data.head? = some 'L' :=
  strHead_append _ (strHead_append _ rfl)

/-- C7: a component whose non-empty type has no registry entry gets
the unsupported-type line (returned, never raised), and that message
is distinct from every not-found message any strategy can produce,
for all interpolated names — unsupported type and absent resource are
never conflated. -/
theorem c7_unsupported_type_distinct :
    (∀ (comp : Component) (cloud : Cloud) t n,
      comp.type = some t → comp.name = some n → t ≠ "" → n ≠ "" →
      HEALTH_CHECK_REGISTRY t = none →
      processComponent HEALTH_CHECK_REGISTRY cloud comp =
        .ok (status_line (unsupported_type_msg t)))
    ∧ (∀ t n, unsupported_type_msg t ≠ rds_not_found_msg n)
    ∧ (∀ t n, unsupported_type_msg t ≠ mh_not_found_msg n)
    ∧ (∀ t n, unsupported_type_msg t ≠ lb_not_found_msg n)
    ∧ (∀ t n, unsupported_type_msg t ≠ iam_not_found_msg n)
    ∧ (∀ t n r, unsupported_type_msg t ≠ ecs_failure_msg n r)
    ∧ (∀ t n, unsupported_type_msg t ≠ ecs_not_found_msg n)
    ∧ (∀ t a, unsupported_type_msg t ≠ kms_not_found_msg a)
    ∧ (∀ t n, unsupported_type_msg t ≠ sqs_not_found_msg n)
    ∧ (∀ t n, unsupported_type_msg t ≠ lambda_not_found_msg n) := by
  refine ⟨?_, ?_, ?_, ?_, ?_, ?_, ?_, ?_, ?_, ?_⟩
  · intro comp cloud t n ht hn htne hnne hreg
    simp [processComponent, ht, hn, htne, hnne, hreg, pure, Except.pure]
  · exact fun t n => strNe_of_head (unsupported_type_msg_head t) (rds_not_found_msg_head n) (by decide)
  · exact fun t n => strNe_of_head (unsupported_type_msg_head t) (mh_not_found_msg_head n) (by decide)
  · exact fun t n => strNe_of_head (unsupported_type_msg_head t) (lb_not_found_msg_head n) (by decide)
  · exact fun t n => strNe_of_head (unsupported_type_msg_head t) (iam_not_found_msg_head n) (by decide)
  · exact fun t n r => strNe_of_head (unsupported_type_msg_head t) (ecs_failure_msg_head n r) (by decide)
  · exact fun t n => strNe_of_head (unsupported_type_msg_head t) (ecs_not_found_msg_head n) (by decide)
  · exact fun t a => strNe_of_head (unsupported_type_msg_head t) (kms_not_found_msg_head a) (by decide)
  · exact fun t n => strNe_of_head (unsupported_type_msg_head t) (sqs_not_found_msg_head n) (by decide)
  · exact fun t n => strNe_of_head (unsupported_type_msg_head t) (lambda_not_found_msg_head n) (by decide)

/-- Witness for C7: `Lightsail` has no registry entry; its outcome is
the unsupported-type line and differs from a not-found message. -/
theorem c7_witness :
    processComponent HEALTH_CHECK_REGISTRY cloud0 ⟨some "Lightsail", some "cache", []⟩ =
      .ok (status_line (unsupported_type_msg "Lightsail"))
    ∧ unsupported_type_msg "Lightsail" ≠ lb_not_found_msg "cache" :=
  ⟨c7_unsupported_type_distinct.1 ⟨some "Lightsail", some "cache", []⟩ cloud0
     "Lightsail" "cache" rfl rfl (by decide) (by decide) rfl,
   c7_unsupported_type_distinct.2.2.2.1 "Lightsail" "cache"⟩

/-- One loop iteration always returns a line: the missing-field skip,
the unsupported-type line, the `try`-protected status line, or the
converted "unexpected error" line. -/
theorem processComponent_ok (registry : String → Option Strategy) (cloud : Cloud)
    (comp : Component) : ∃ s, processComponent registry cloud comp = .ok s := by
  obtain ⟨t, n, props⟩ := comp
  cases t with
  | none => exact ⟨skipping_line, rfl⟩
  | some t =>
    cases n with
    | none => exact ⟨skipping_line, rfl⟩
    | some n =>
      by_cases he : t = "" ∨ n = ""
      · exact ⟨skipping_line, by simp [processComponent, he, pure, Except.pure]⟩
      · cases hr : registry t with
        | none => exact ⟨status_line (unsupported_type_msg t), by simp [processComponent, he, hr, pure, Except.pure]⟩
        | some f =>
          cases hf : f n props cloud with
          | ok s => exact ⟨status_line s, by simp [processComponent, he, hr, hf, pure, Except.pure]⟩
          | error e => exact ⟨unexpected_error_line e, by simp [processComponent, he, hr, hf, pure, Except.pure]⟩

/-- C8: the run loop never aborts — for every registry (hence for
strategies with arbitrary failure behaviour) and every component
sequence it returns exactly one line per component; and when the
first component's strategy invocation raises any exception, that
component's line is the converted "unexpected error" line while every
remaining component is still processed. -/
theorem c8_loop_isolates_failures :
    (∀ registry (cloud : Cloud) comps, ∃ lines,
      run_health_checks_loop registry cloud comps = .ok lines ∧
        lines.length = comps.length)
    ∧ (∀ registry (cloud : Cloud) (comp : Component) rest t n f e,
      comp.type = some t → comp.name = some n → t ≠ "" → n ≠ "" →
      registry t = some f → f n comp.properties cloud = .error e →
      ∃ lines, run_health_checks_loop registry cloud (comp :: rest) =
        .ok (unexpected_error_line e :: lines) ∧ lines.length = rest.length) := by
  have h1 : ∀ registry (cloud : Cloud) comps, ∃ lines,
      run_health_checks_loop registry cloud comps = .ok lines ∧
        lines.length = comps.length := by
    intro registry cloud comps
    induction comps with
    | nil => exact ⟨[], rfl, rfl⟩
    | cons comp rest ih =>
      obtain ⟨s, hs⟩ := processComponent_ok registry cloud comp
      obtain ⟨lines, hl, hlen⟩ := ih
      exact ⟨s :: lines,
        by simp [run_health_checks_loop, hs, hl, Bind.bind, Except.bind, pure, Except.pure],
        by simp [hlen]⟩
  refine ⟨h1, ?_⟩
  intro registry cloud comp rest t n f e ht hn htne hnne hreg hf
  obtain ⟨lines, hl, hlen⟩ := h1 registry cloud rest
  have hproc : processComponent registry cloud comp = .ok (unexpected_error_line e) := by
    simp [processComponent, ht, hn, htne, hnne, hreg, hf, pure, Except.pure]
  exact ⟨lines,
    by simp [run_health_checks_loop, hproc, hl, Bind.bind, Except.bind, pure, Except.pure],
    hlen⟩

/-- A strategy that always raises a non-provider exception. -/
def boom_strategy : Strategy := fun _ _ _ => .error (.other "boom")

/-- A registry with one raising strategy, for exercising the loop's
`except Exception` conversion. -/
def boom_registry : String → Option Strategy := fun t =>
  if t = "Boom" then some boom_strategy else none

/-- Witness for C8: a raising first strategy yields the converted
error line and the remaining component is still processed. -/
theorem c8_witness :
    ∃ lines, run_health_checks_loop boom_registry cloud0
        [⟨some "Boom", some "a", []⟩, ⟨some "Good", some "b", []⟩] =
      .ok (unexpected_error_line (.other "boom") :: lines) ∧ lines.length = 1 :=
  c8_loop_isolates_failures.2 boom_registry cloud0 ⟨some "Boom", some "a", []⟩
    [⟨some "Good", some "b", []⟩] "Boom" "a" boom_strategy (.other "boom")
    rfl rfl (by decide) (by decide) rfl rfl

/-- A provider whose ECS lookup echoes the queried key back as a
found cluster (so the returned verdict reveals which key the strategy
queried), and whose KMS lookup finds every alias. -/
def ecsProbeCloud : Cloud where
  describe_db_clusters := .ok []
  describe_instances := fun _ => .ok []
  describe_instance_status := fun _ => .ok []
  describe_load_balancers := .ok []
  list_roles := .ok []
  describe_clusters := fun key => .ok ⟨[], [⟨key, "ACTIVE", 0⟩]⟩
  describe_key := fun _ => .ok ⟨"k-123", "Enabled"⟩
  list_queues := .ok (some [])
  list_functions := .ok []

/-- Counterexample to C2: with an override identifier in
`properties`, the ECS strategy still queries the declared name (its
verdict names `declared-name`, not `override-id`); and with no
override present, the KMS strategy does not fall back to the declared
name — it skips, even against a provider that would resolve any
alias. -/
theorem c2_counterexample :
    check_ecs_cluster "declared-name" [("cluster_identifier", "override-id")] ecsProbeCloud =
      .ok (ecs_found_msg ⟨"declared-name", "ACTIVE", 0⟩)
    ∧ check_ecs_cluster "declared-name" [("cluster_identifier", "override-id")] ecsProbeCloud ≠
      .ok (ecs_found_msg ⟨"override-id", "ACTIVE", 0⟩)
    ∧ check_kms_key "declared-name" [] ecsProbeCloud = .ok kms_skipped_msg
    ∧ check_kms_key "declared-name" [] ecsProbeCloud ≠
      .ok (kms_found_msg ⟨"k-123", "Enabled"⟩ "declared-name") := by
  refine ⟨rfl, ?_, rfl, ?_⟩
  · intro h
    rw [show check_ecs_cluster "declared-name" [("cluster_identifier", "override-id")] ecsProbeCloud =
      .ok (ecs_found_msg ⟨"declared-name", "ACTIVE", 0⟩) from rfl] at h
    exact absurd (Except.ok.inj h) (by decide)
  · intro h
    rw [show check_kms_key "declared-name" [] ecsProbeCloud = .ok kms_skipped_msg from rfl] at h
    exact absurd (Except.ok.inj h) (by decide)

/-- A provider that raises everywhere except on the ECS lookup, where
it agrees with `ecsProbeCloud`. -/
def c2cloud : Cloud :=
  { errCloud with describe_clusters := fun key => .ok ⟨[], [⟨key, "ACTIVE", 0⟩]⟩ }

/-- C2 (amended): the ECS strategy ignores `properties` entirely and
its verdict depends only on the provider's response at the declared
name, which is its sole lookup key; the KMS strategy ignores the
declared name entirely and, when `properties` carries no `key_alias`,
returns the skipped verdict instead of falling back to the name. -/
theorem c2_lookup_keys :
    (∀ name props props' (cloud : Cloud),
      check_ecs_cluster name props cloud = check_ecs_cluster name props' cloud)
    ∧ (∀ name props (cloud cloud' : Cloud),
      cloud.describe_clusters name = cloud'.describe_clusters name →
      check_ecs_cluster name props cloud = check_ecs_cluster name props cloud')
    ∧ (∀ name name' props (cloud : Cloud),
      check_kms_key name props cloud = check_kms_key name' props cloud)
    ∧ (∀ name props (cloud : Cloud), pyGetProp props "key_alias" = none →
      check_kms_key name props cloud = .ok kms_skipped_msg) := by
  refine ⟨fun _ _ _ _ => rfl, ?_, fun _ _ _ _ => rfl, ?_⟩
  · intro name props cloud cloud' h
    unfold check_ecs_cluster
    rw [h]
  · intro name props cloud h
    simp [check_kms_key, h, pure, Except.pure]

/-- Witness for C2's amended statement: two providers agreeing on the
ECS response at the declared name produce the same verdict, and a
property set without `key_alias` yields the skipped verdict. -/
theorem c2_witness :
    check_ecs_cluster "svc" [] ecsProbeCloud = check_ecs_cluster "svc" [] c2cloud
    ∧ check_kms_key "svc" [("other", "v")] cloud0 = .ok kms_skipped_msg :=
  ⟨c2_lookup_keys.2.1 "svc" [] ecsProbeCloud c2cloud rfl,
   c2_lookup_keys.2.2.2 "svc" [("other", "v")] cloud0 rfl⟩

/-- Walk the characters, restarting the current segment after every
`/`; the result is the final path segment. -/
def lastSegAux (seg : List Char) : List Char → List Char
  | [] => seg
  | c :: rest => if c = '/' then lastSegAux [] rest else lastSegAux (seg ++ [c]) rest

/-- Following the claim's words (a refinement-side definition, not
code): a queue's real name is the final path segment of its URL. -/
def spec_sqs_queue_name (url : String) : String :=
  ⟨lastSegAux [] url.data⟩

/-- A realistic queue URL whose queue name is `orders`. -/
def demo_queue_url : String :=
  "https://sqs.us-east-1.amazonaws.com/123456789012/orders"

/-- A provider listing exactly one queue, `orders`. -/
def sqsProbeCloud : Cloud :=
  { cloud0 with list_queues := .ok (some [demo_queue_url]) }

/-- Counterexample to C4: with declared name `amazonaws`, no listed
queue's real name contains the declared name, yet the SQS strategy
reports the queue found — the code matches against the whole URL
(whose host part contains `amazonaws`), not against the resource's
name. -/
theorem c4_counterexample :
    check_sqs_queue "amazonaws" [] sqsProbeCloud = .ok (sqs_found_msg demo_queue_url)
    ∧ spec_sqs_queue_name demo_queue_url = "orders"
    ∧ pyIn "amazonaws" (spec_sqs_queue_name demo_queue_url) = false :=
  ⟨rfl, by decide, by decide⟩

/-- C4 (amended): each listing-based strategy accepts exactly the
first entry, in provider-returned order, whose match field contains
the declared name, and reports not-found when no entry matches — the
match field is the resource name for load balancers, IAM roles and
Lambda functions, but the full queue URL for SQS. -/
theorem c4_listing_first_match :
    (∀ name props (cloud : Cloud) pre lb post,
      cloud.describe_load_balancers = .ok (pre ++ lb :: post) →
      (∀ l ∈ pre, pyIn name l.loadBalancerName = false) →
      pyIn name lb.loadBalancerName = true →
      check_load_balancer name props cloud = .ok (lb_found_msg lb))
    ∧ (∀ name props (cloud : Cloud) lbs,
      cloud.describe_load_balancers = .ok lbs →
      (∀ l ∈ lbs, pyIn name l.loadBalancerName = false) →
      check_load_balancer name props cloud = .ok (lb_not_found_msg name))
    ∧ (∀ name props (cloud : Cloud) pre role post,
      cloud.list_roles = .ok (pre ++ role :: post) →
      (∀ r ∈ pre, pyIn name r.roleName = false) →
      pyIn name role.roleName = true →
      check_iam_role name props cloud = .ok (iam_found_msg role))
    ∧ (∀ name props (cloud : Cloud) roles,
      cloud.list_roles = .ok roles →
      (∀ r ∈ roles, pyIn name r.roleName = false) →
      check_iam_role name props cloud = .ok (iam_not_found_msg name))
    ∧ (∀ name props (cloud : Cloud) pre func post,
      cloud.list_functions = .ok (pre ++ func :: post) →
      (∀ f ∈ pre, pyIn name f.functionName = false) →
      pyIn name func.functionName = true →
      check_lambda_function name props cloud = .ok (lambda_found_msg func))
    ∧ (∀ name props (cloud : Cloud) functions,
      cloud.list_functions = .ok functions →
      (∀ f ∈ functions, pyIn name f.functionName = false) →
      check_lambda_function name props cloud = .ok (lambda_not_found_msg name))
    ∧ (∀ name props (cloud : Cloud) pre url post,
      cloud.list_queues = .ok (some (pre ++ url :: post)) →
      (∀ u ∈ pre, pyIn name u = false) →
      pyIn name url = true →
      check_sqs_queue name props cloud = .ok (sqs_found_msg url))
    ∧ (∀ name props (cloud : Cloud) urls,
      cloud.list_queues = .ok (some urls) →
      (∀ u ∈ urls, pyIn name u = false) →
      check_sqs_queue name props cloud = .ok (sqs_not_found_msg name)) := by
  refine ⟨?_, ?_, ?_, ?_, ?_, ?_, ?_, ?_⟩
  · intro name props cloud pre lb post h hpre hlb
    unfold check_load_balancer
    rw [h]
    simp [pyTry, liftP, Bind.bind, Except.bind, pure, Except.pure,
      find?_first _ pre lb post hpre hlb]
  · intro name props cloud lbs h hall
    unfold check_load_balancer
    rw [h]
    simp [pyTry, liftP, Bind.bind, Except.bind, pure, Except.pure,
      find?_all_false _ lbs hall]
  · intro name props cloud pre role post h hpre hrole
    unfold check_iam_role
    rw [h]
    simp [pyTry, liftP, Bind.bind, Except.bind, pure, Except.pure,
      find?_first _ pre role post hpre hrole]
  · intro name props cloud roles h hall
    unfold check_iam_role
    rw [h]
    simp [pyTry, liftP, Bind.bind, Except.bind, pure, Except.pure,
      find?_all_false _ roles hall]
  · intro name props cloud pre func post h hpre hfunc
    unfold check_lambda_function
    rw [h]
    simp [pyTry, liftP, Bind.bind, Except.bind, pure, Except.pure,
      find?_first _ pre func post hpre hfunc]
  · intro name props cloud functions h hall
    unfold check_lambda_function
    rw [h]
    simp [pyTry, liftP, Bind.bind, Except.bind, pure, Except.pure,
      find?_all_false _ functions hall]
  · intro name props cloud pre url post h hpre hurl
    unfold check_sqs_queue
    rw [h]
    simp [pyTry, liftP, Bind.bind, Except.bind, pure, Except.pure,
      find?_first _ pre url post hpre hurl]
  · intro name props cloud urls h hall
    unfold check_sqs_queue
    rw [h]
    simp [pyTry, liftP, Bind.bind, Except.bind, pure, Except.pure,
      find?_all_false _ urls hall]

/-- A provider listing used by the C4 witness: three load balancers,
two of which contain `orders`, and no Lambda functions. -/
def c4cloud : Cloud :=
  { cloud0 with
    describe_load_balancers := Except.ok
      [⟨"internal-zzz", "active"⟩, ⟨"prod-orders-alb", "active"⟩,
       ⟨"orders-alb-2", "active"⟩] }

/-- Witness for C4's amended statement: the first matching load
balancer wins over a later match, and an empty function listing
yields not-found. -/
theorem c4_witness :
    check_load_balancer "orders" [] c4cloud = .ok (lb_found_msg ⟨"prod-orders-alb", "active"⟩)
    ∧ check_lambda_function "pay" [] c4cloud = .ok (lambda_not_found_msg "pay") :=
  ⟨c4_listing_first_match.1 "orders" [] c4cloud [⟨"internal-zzz", "active"⟩]
     ⟨"prod-orders-alb", "active"⟩ [⟨"orders-alb-2", "active"⟩] rfl (by decide) (by decide),
   c4_listing_first_match.2.2.2.2.2.1 "pay" [] c4cloud [] rfl (by decide)⟩

/-- A components section with one well-formed component. -/
def c5comps : Yaml :=
  .list [.dict [("type", .str "KMS"), ("name", .str "k")]]

/-- Counterexample to C5: the loader of `health.py` reads `components`
only at the document root — the same section nested under `spec`
yields the empty default there, while the extractor in `new.py` is
the only one accepting both layouts. -/
theorem c5_counterexample :
    health_components (.dict [("spec", .dict [("components", c5comps)])]) = .ok (.list [])
    ∧ health_components (.dict [("components", c5comps)]) = .ok c5comps
    ∧ c5comps ≠ .list [] := by
  refine ⟨rfl, rfl, ?_⟩
  intro h
  simp [c5comps] at h

/-- C5 (amended): `new.py`'s `extract_location_and_services_from_yaml`
accepts the components section at the document root and nested under
`spec`, producing the same records for every section value;
`health.py`'s loader reads only the root layout, yielding the empty
default for every nested-only document. -/
theorem c5_components_layouts :
    (∀ comps : Yaml,
      extract_components (.dict [("components", comps)]) =
        extract_components (.dict [("spec", .dict [("components", comps)])]))
    ∧ (∀ comps : Yaml,
      health_components (.dict [("spec", .dict [("components", comps)])]) =
        .ok (.list [])) :=
  ⟨fun _ => rfl, fun _ => rfl⟩

/-- A descriptor declaring one load balancer that the provider does
not have. -/
def c3config : Yaml :=
  .dict [("components", .list
    [.dict [("type", .str "ApplicationLoadBalancer"), ("name", .str "orders-alb")]])]

/-- Counterexample to C3: a component resolves to not-found, yet
`health.py` completes with exit status `0` — the exit status does not
reflect unresolved components. -/
theorem c3_counterexample :
    health_main (some c3config) cloud0 =
      .ok (0, [status_line (lb_not_found_msg "orders-alb")]) := rfl

/-- C3 (amended): `health.py` exits with status `1`, producing no
report and touching no provider call, exactly when the descriptor
fails to load or parses to a falsy document; every normal completion
exits `0` regardless of the verdicts; and `sample-yaml-reading.py`
exits `0` on every normal completion, including load failures. -/
theorem c3_exit_codes :
    (∀ cloud, health_main none cloud = .ok (1, []))
    ∧ (∀ config (cloud : Cloud), config.truthy = false →
        health_main (some config) cloud = .ok (1, []))
    ∧ (∀ config (cloud : Cloud) code lines, config.truthy = true →
        health_main (some config) cloud = .ok (code, lines) → code = 0)
    ∧ (∀ loadResult (cloud : Cloud) code lines,
        sample_main loadResult cloud = .ok (code, lines) → code = 0) := by
  refine ⟨fun _ => rfl, ?_, ?_, ?_⟩
  · intro config cloud h
    simp [health_main, h, pure, Except.pure]
  · intro config cloud code lines htr h
    simp only [health_main] at h
    rw [htr] at h
    rw [if_neg (by decide : ¬(true = false))] at h
    obtain ⟨specV, h1, h⟩ := mbind_ok h
    obtain ⟨modulepak, h2, h⟩ := mbind_ok h
    obtain ⟨firstPak, h3, h⟩ := mbind_ok h
    obtain ⟨env, h4, h⟩ := mbind_ok h
    obtain ⟨region, h5, h⟩ := mbind_ok h
    obtain ⟨compsY, h6, h⟩ := mbind_ok h
    cases hc : compsY.truthy with
    | true =>
      rw [hc, if_pos rfl] at h
      obtain ⟨items, h7, h⟩ := mbind_ok h
      obtain ⟨lines', h8, h⟩ := mbind_ok h
      have hp : (0, lines') = (code, lines) := Except.ok.inj h
      exact (congrArg Prod.fst hp).symm
    | false =>
      rw [hc] at h
      rw [if_neg (by decide : ¬(false = true))] at h
      have hp : ((0, []) : Nat × List String) = (code, lines) := Except.ok.inj h
      exact (congrArg Prod.fst hp).symm
  · intro loadResult cloud code lines h
    unfold sample_main at h
    cases hr : run_health_checks loadResult cloud with
    | ok ls =>
      rw [hr] at h
      have hp : (0, ls) = (code, lines) := Except.ok.inj h
      exact (congrArg Prod.fst hp).symm
    | error e =>
      rw [hr] at h
      exact absurd h (by simp [Except.map])

/-- Witness for C3's amended statement: a falsy parsed document exits
`1`; the concrete not-found run completes with exit `0`; and a failed
load in `sample-yaml-reading.py` also completes with exit `0`. -/
theorem c3_witness :
    health_main (some .null) cloud0 = .ok (1, [])
    ∧ ((0 : Nat) = 0)
    ∧ ((0 : Nat) = 0) :=
  ⟨c3_exit_codes.2.1 .null cloud0 rfl,
   c3_exit_codes.2.2.1 c3config cloud0 0 [status_line (lb_not_found_msg "orders-alb")] rfl rfl,
   c3_exit_codes.2.2.2 none cloud0 0 [] rfl⟩
